import Mathlib

/-!
Verification development for the agistry adapter-framework repository.

The resilient HTTP client (`src/src/client.ts`, class `AdapterClient`) is
embedded shallowly below: the network is an explicit environment mapping each
fetch call and attempt number to an outcome, machine state is passed
explicitly, and the retry loop is fuel-indexed by `maxAttempts`.

Parts of the repository that are only declared (the circuit-breaker state
types in the extended type module) or only exported (the pipeline executor)
are modelled from the specification; each such definition carries a doc
comment starting with `Modelled from the spec:`.
-/

namespace Agistry

/-- Status field of `AdapterResponse`: the literal union of ok and error. -/
inductive Status where
  | ok
  | error
deriving DecidableEq, Repr

/-- Context bag `AdapterContext`: string-keyed values (modelled as key/value pairs). -/
abbrev AdapterContext : Type := List (String × String)

/-- Response shape `AdapterResponse` from `types.ts`: `{ output?, status, data?, error? }`.
The `data` field is typed `any` in the source; it is modelled as a key/value
bag so the pipeline's context merge can consume it. -/
structure AdapterResponse where
  output : Option String := none
  status : Status
  data : AdapterContext := []
  error : Option String := none
deriving DecidableEq, Repr

/-- Wire payload `AdapterRequest` from `types.ts` for one attempt. -/
structure AdapterRequest where
  adapterId : String
  input : Option String
  context : AdapterContext
deriving DecidableEq, Repr

/-- Retry policy `RetryConfig` from the extended type module. -/
structure RetryConfig where
  maxAttempts : Nat
  baseDelay : Nat
  maxDelay : Nat
  backoffMultiplier : Nat
deriving DecidableEq, Repr

/-- The TS type `Partial<RetryConfig>`: every field optional. -/
structure RetryOverrides where
  maxAttempts : Option Nat := none
  baseDelay : Option Nat := none
  maxDelay : Option Nat := none
  backoffMultiplier : Option Nat := none
deriving DecidableEq, Repr

/-- Client configuration `AdapterConfig`: baseUrl, optional headers, timeout and retry. -/
structure AdapterConfig where
  baseUrl : String
  headers : List (String × String) := []
  timeout : Option Nat := none
  retry : Option RetryOverrides := none
deriving DecidableEq, Repr

/-- Enum `CircuitState` from the extended type module. -/
inductive CircuitState where
  | closed
  | open_
  | halfOpen
deriving DecidableEq, Repr

/-- Interface `CircuitBreakerState` from the extended type module. -/
structure CircuitBreakerState where
  state : CircuitState
  failures : Nat
  lastFailureTime : Nat
  successes : Nat
deriving DecidableEq, Repr

/-- A JavaScript thrown value as the client observes it: its `message`, its
optional numeric `status` property, and whether it is an `Error` instance. -/
structure JsError where
  message : String
  status : Option Nat := none
  isErrorInstance : Bool := true
deriving DecidableEq, Repr

/-- One `fetch(url, init)` call as issued by the client: URL, method, headers,
JSON body, and the optional abort/timeout signal of `RequestInit`. -/
structure FetchCall where
  url : String
  method : String
  headers : List (String × String)
  body : AdapterRequest
  signal : Option Nat
deriving DecidableEq, Repr

/-- The network environment's answer to one fetch: an HTTP reply carrying a
parseable JSON body, an HTTP reply whose body fails to parse as JSON, or a
rejection (network error, timeout, ...). -/
inductive FetchOutcome where
  | reply (statusCode : Nat) (statusText : String) (body : AdapterResponse)
  | replyBadJson (statusCode : Nat) (statusText : String) (e : JsError)
  | reject (e : JsError)
deriving DecidableEq, Repr

/-- Observable trace of one `callAdapter` run that entered the retry loop:
the returned response, how many fetches were started, and the backoff
delays slept between attempts. -/
structure CallResult where
  response : AdapterResponse
  attempts : Nat
  delays : List Nat
deriving DecidableEq, Repr

/-- Default retry policy `AdapterClient.defaultRetryConfig`. -/
def defaultRetryConfig : RetryConfig :=
  { maxAttempts := 3, baseDelay := 1000, maxDelay := 10000, backoffMultiplier := 2 }

/-- The constructor's `this.config = { timeout: 30000, ...config }`: the
default timeout applies only when the caller supplied none. -/
def mkClientConfig (config : AdapterConfig) : AdapterConfig :=
  { config with timeout := some (config.timeout.getD 30000) }

/-- Spread merge of the retry defaults with the caller's retry overrides: per-field override
of the defaults by the caller's partial retry config. -/
def mergedRetryConfig (retry : Option RetryOverrides) : RetryConfig :=
  match retry with
  | none => defaultRetryConfig
  | some o =>
    { maxAttempts := o.maxAttempts.getD defaultRetryConfig.maxAttempts,
      baseDelay := o.baseDelay.getD defaultRetryConfig.baseDelay,
      maxDelay := o.maxDelay.getD defaultRetryConfig.maxDelay,
      backoffMultiplier := o.backoffMultiplier.getD defaultRetryConfig.backoffMultiplier }

/-- Backoff `getRetryDelay`: baseDelay times backoffMultiplier^(attempt-1), capped at maxDelay. -/
def getRetryDelay (attempt : Nat) (retryConfig : RetryConfig) : Nat :=
  min (retryConfig.baseDelay * retryConfig.backoffMultiplier ^ (attempt - 1))
    retryConfig.maxDelay

/-- Retry decision `shouldRetry(error, attempt, maxAttempts)`: no retry when attempts are
exhausted or the error carries a 4xx status; otherwise retry. An error with
no `status` property (e.g. a network error or timeout) falls through the 4xx
test, exactly as `undefined >= 400` is false in JavaScript. -/
def shouldRetry (e : JsError) (attempt maxAttempts : Nat) : Bool :=
  if attempt ≥ maxAttempts then false
  else
    match e.status with
    | some s => if 400 ≤ s ∧ s < 500 then false else true
    | none => true

/-- Predicate for `Response.ok`: HTTP status in the range 200–299. -/
def respOk (statusCode : Nat) : Bool :=
  200 ≤ statusCode && statusCode < 300

/-- The error thrown for a non-ok HTTP reply:
`new Error("Adapter ... failed: ...")` with its `status` property set. -/
def attemptFailure (adapterId : String) (statusCode : Nat) (statusText : String) : JsError :=
  { message := "Adapter " ++ adapterId ++ " failed: " ++ statusText,
    status := some statusCode,
    isErrorInstance := true }

/-- The structured error response built after the loop:
`lastError instanceof Error ? lastError.message : 'Unknown error occurred'`. -/
def exhaustedResponse (lastError : Option JsError) : AdapterResponse :=
  { status := Status.error,
    error := some (match lastError with
      | some e => if e.isErrorInstance then e.message else "Unknown error occurred"
      | none => "Unknown error occurred") }

/-- The fetch call built at lines 67–74 of `client.ts`: POST to
`baseUrl + "/run-adapter"`, JSON content type plus configured headers, the
request as body, and no abort/timeout signal. -/
def buildFetchCall (config : AdapterConfig) (request : AdapterRequest) : FetchCall :=
  { url := config.baseUrl ++ "/run-adapter",
    method := "POST",
    headers := ("Content-Type", "application/json") :: config.headers,
    body := request,
    signal := none }

/-- One iteration of the `try` block: either a parsed body is returned, or an
error is caught (the thrown status error for non-ok replies, the JSON parse
error for ok replies with a bad body, the rejection itself otherwise). -/
def attemptResult (adapterId : String) (o : FetchOutcome) : Except JsError AdapterResponse :=
  match o with
  | FetchOutcome.reply st text body =>
    if respOk st then Except.ok body else Except.error (attemptFailure adapterId st text)
  | FetchOutcome.replyBadJson st text e =>
    if respOk st then Except.error e else Except.error (attemptFailure adapterId st text)
  | FetchOutcome.reject e => Except.error e

/-- The retry loop of `callAdapter`, fuel-indexed: `fuel` is the number of
loop iterations still allowed (`maxAttempts - attempt + 1` at entry), so
`fuel = 0` is the loop condition `attempt <= maxAttempts` failing, which
returns the structured error built from the last observed error. -/
def callLoop (adapterId : String) (config : AdapterConfig)
    (env : FetchCall → Nat → FetchOutcome)
    (input : Option String) (context : AdapterContext) (rc : RetryConfig) :
    Nat → Nat → Option JsError → CallResult
  | _, 0, lastError => ⟨exhaustedResponse lastError, 0, []⟩
  | attempt, fuel + 1, _ =>
    let request : AdapterRequest := ⟨adapterId, input, context⟩
    let fc := buildFetchCall config request
    match attemptResult adapterId (env fc attempt) with
    | Except.ok body => ⟨body, 1, []⟩
    | Except.error e =>
      if shouldRetry e attempt rc.maxAttempts then
        let rest := callLoop adapterId config env input context rc (attempt + 1) fuel (some e)
        if attempt < rc.maxAttempts then
          ⟨rest.response, rest.attempts + 1, getRetryDelay attempt rc :: rest.delays⟩
        else
          ⟨rest.response, rest.attempts + 1, rest.delays⟩
      else
        ⟨exhaustedResponse (some e), 1, []⟩

/-- Main entry `AdapterClient.callAdapter`: throws (here `Except.error`) on an invalid
adapter id, otherwise runs the retry loop from attempt 1. The registry lookup
`isValidAdapterId` and the network behaviour `env` are explicit parameters. -/
def callAdapter (isValidAdapterId : String → Bool) (config : AdapterConfig)
    (env : FetchCall → Nat → FetchOutcome)
    (adapterId : String) (input : Option String) (context : AdapterContext) :
    Except String CallResult :=
  if !isValidAdapterId adapterId then
    Except.error ("Invalid adapter ID: " ++ adapterId)
  else
    let cfg := mkClientConfig config
    let rc := mergedRetryConfig cfg.retry
    Except.ok (callLoop adapterId cfg env input context rc 1 rc.maxAttempts none)

/-- Network attempts started by a `callAdapter` run: a validation throw
happens before the loop, so it makes zero fetches. -/
def attemptsMade (r : Except String CallResult) : Nat :=
  match r with
  | Except.error _ => 0
  | Except.ok res => res.attempts

/-- Backoff delays slept by a `callAdapter` run (empty when the call threw
before the loop). -/
def delaysSlept (r : Except String CallResult) : List Nat :=
  match r with
  | Except.error _ => []
  | Except.ok res => res.delays

/-- Batch entry `batchCallAdapters`, a `Promise.all` over `callAdapter` per id. All
rejections are validation throws, which settle before any network outcome,
so the batch result is the in-order first validation error when one exists
and the in-order list of call results otherwise. Each id is driven by its
own network environment `envs id`. -/
def batchCallAdapters (isValidAdapterId : String → Bool) (config : AdapterConfig)
    (envs : String → FetchCall → Nat → FetchOutcome)
    (adapterIds : List String) (input : Option String) (context : AdapterContext) :
    Except String (List CallResult) :=
  adapterIds.mapM (fun adapterId =>
    callAdapter isValidAdapterId config (envs adapterId) adapterId input context)

/-- The loop result of a call that passed validation (the `Except.ok` payload
of `callAdapter` on a valid id). -/
def validCallResult (config : AdapterConfig) (env : FetchCall → Nat → FetchOutcome)
    (adapterId : String) (input : Option String) (context : AdapterContext) : CallResult :=
  let cfg := mkClientConfig config
  let rc := mergedRetryConfig cfg.retry
  callLoop adapterId cfg env input context rc 1 rc.maxAttempts none

/-! Circuit breaker (modelled from the spec).

The repository declares `CircuitState` / `CircuitBreakerState` but the
transition and gating logic itself is not among the given sources; the
definitions below follow §4.3 of the specification. -/

/-- Modelled from the spec: the breaker's configuration — the consecutive
failure threshold that trips it OPEN, and the cooldown period. -/
structure BreakerConfig where
  failureThreshold : Nat
  cooldown : Nat
deriving DecidableEq, Repr

/-- Modelled from the spec: the initial breaker state — CLOSED with zero
counters. -/
def initialBreaker : CircuitBreakerState :=
  { state := CircuitState.closed, failures := 0, lastFailureTime := 0, successes := 0 }

/-- Modelled from the spec: the gate consulted before a call. CLOSED passes
through; OPEN rejects until the cooldown has elapsed since `lastFailureTime`,
after which the next call is let through as the trial and the state becomes
HALF_OPEN; while HALF_OPEN the single trial is already in flight, so further
calls are rejected. Returns whether the call may proceed, and the new state. -/
def breakerGate (cfg : BreakerConfig) (now : Nat) (s : CircuitBreakerState) :
    Bool × CircuitBreakerState :=
  match s.state with
  | CircuitState.closed => (true, s)
  | CircuitState.open_ =>
    if cfg.cooldown ≤ now - s.lastFailureTime then
      (true, { s with state := CircuitState.halfOpen })
    else
      (false, s)
  | CircuitState.halfOpen => (false, s)

/-- Modelled from the spec: recording a successful call. In CLOSED, success
resets `failures` to 0; a HALF_OPEN trial success transitions to CLOSED and
resets both `failures` and `successes` to 0. -/
def recordSuccess (s : CircuitBreakerState) : CircuitBreakerState :=
  match s.state with
  | CircuitState.closed => { s with failures := 0 }
  | CircuitState.halfOpen =>
    { s with state := CircuitState.closed, failures := 0, successes := 0 }
  | CircuitState.open_ => s

/-- Modelled from the spec: recording a failed call at time `now`. In CLOSED,
`failures` is incremented and reaching the threshold trips the breaker OPEN,
recording `lastFailureTime`; a HALF_OPEN trial failure transitions back to
OPEN with `lastFailureTime` refreshed to `now`. -/
def recordFailure (cfg : BreakerConfig) (now : Nat) (s : CircuitBreakerState) :
    CircuitBreakerState :=
  match s.state with
  | CircuitState.closed =>
    if s.failures + 1 ≥ cfg.failureThreshold then
      { s with state := CircuitState.open_, failures := s.failures + 1,
               lastFailureTime := now }
    else
      { s with failures := s.failures + 1 }
  | CircuitState.halfOpen =>
    { s with state := CircuitState.open_, lastFailureTime := now }
  | CircuitState.open_ => s

/-- A run of consecutive failures, one at each listed time, oldest first. -/
def recordFailures (cfg : BreakerConfig) (times : List Nat) (s : CircuitBreakerState) :
    CircuitBreakerState :=
  times.foldl (fun acc t => recordFailure cfg t acc) s

/-! Pipeline orchestrator (modelled from the spec).

The executor module is exported by `index.ts` but is not among the given
sources; the definitions below follow §4.5 of the specification. -/

/-- Last-writer-wins merge of context contributions into a context: keys of
`extra` override keys of `base`. -/
def mergeContext (base extra : AdapterContext) : AdapterContext :=
  base.filter (fun p => extra.all (fun q => q.fst ≠ p.fst)) ++ extra

/-- Terminal outcome of a sequential pipeline run: the final prompt and
merged context, or the identity and error of the step that failed. -/
inductive PipelineOutcome where
  | ok (prompt : String) (context : AdapterContext)
  | failed (adapterId : String) (err : Option String)
deriving DecidableEq, Repr

/-- A sequential pipeline run together with the list of adapters actually
invoked, in invocation order. -/
structure PipelineRun where
  outcome : PipelineOutcome
  invoked : List String
deriving DecidableEq, Repr

/-- Modelled from the spec: `runBeforeLLM` — adapters execute sequentially in
list order; a step with `status = error` aborts the rest and surfaces that
step's error; otherwise the step's `output` (if present) becomes the next
input and its `data` contributions are merged into the context. `call` is the
observed per-adapter response of the Resilient Client. -/
def runBeforeLLM (call : String → AdapterResponse) :
    String → AdapterContext → List String → PipelineRun
  | input, context, [] => ⟨PipelineOutcome.ok input context, []⟩
  | input, context, adapterId :: rest =>
    let r := call adapterId
    if r.status = Status.error then
      ⟨PipelineOutcome.failed adapterId r.error, [adapterId]⟩
    else
      let tail := runBeforeLLM call (r.output.getD input) (mergeContext context r.data) rest
      ⟨tail.outcome, adapterId :: tail.invoked⟩

/-- Modelled from the spec: `runAfterLLM` — adapters execute sequentially for
side effects; outputs are not chained, context merging still applies, and a
step with `status = error` aborts the rest and surfaces that step's error. -/
def runAfterLLM (call : String → AdapterResponse) :
    AdapterContext → List String → PipelineRun
  | context, [] => ⟨PipelineOutcome.ok "" context, []⟩
  | context, adapterId :: rest =>
    let r := call adapterId
    if r.status = Status.error then
      ⟨PipelineOutcome.failed adapterId r.error, [adapterId]⟩
    else
      let tail := runAfterLLM call (mergeContext context r.data) rest
      ⟨tail.outcome, adapterId :: tail.invoked⟩

/-- Modelled from the spec: `runParallel` delegates to the Resilient Client's
batch call; no context merging between the concurrently running adapters. -/
def runParallel (isValidAdapterId : String → Bool) (config : AdapterConfig)
    (envs : String → FetchCall → Nat → FetchOutcome)
    (input : Option String) (adapterIds : List String) :
    Except String (List CallResult) :=
  batchCallAdapters isValidAdapterId config envs adapterIds input []

/-! Concrete fixtures used by witnesses and counterexamples. -/

/-- A registry validation lookup with two known adapter ids. -/
def registryEx : String → Bool :=
  fun s => s == "doc-extract" || s == "notify"

/-- A minimal client configuration. -/
def cfgEx : AdapterConfig := { baseUrl := "http://x" }

/-- A successful adapter body. -/
def okBody : AdapterResponse := { status := Status.ok }

/-- A network that answers every fetch with HTTP 200 and a parseable ok body. -/
def envAlwaysOk : FetchCall → Nat → FetchOutcome :=
  fun _ _ => FetchOutcome.reply 200 "OK" okBody

/-- A network that rejects every fetch with a network error. -/
def envAlwaysDown : FetchCall → Nat → FetchOutcome :=
  fun _ _ => FetchOutcome.reject { message := "fetch failed" }

/-- A breaker state that reports OPEN. -/
def openBreakerEx : CircuitBreakerState :=
  { state := CircuitState.open_, failures := 3, lastFailureTime := 100, successes := 0 }

/-- A network that answers every fetch with HTTP 404. -/
def env404 : FetchCall → Nat → FetchOutcome :=
  fun _ _ => FetchOutcome.reply 404 "Not Found" { status := Status.ok }

/-- The minimal configuration with the default timeout made explicit. -/
def cfgTimeoutA : AdapterConfig := { baseUrl := "http://x", timeout := some 30000 }

/-- The minimal configuration with a 1ms timeout. -/
def cfgTimeoutB : AdapterConfig := { baseUrl := "http://x", timeout := some 1 }

/-- An adapter behaviour map for pipeline runs: "bad-step" fails, everything
else succeeds with an output and a context contribution. -/
def pipelineCallEx : String → AdapterResponse :=
  fun id =>
    if id = "bad-step" then
      { status := Status.error, error := some "step exploded" }
    else
      { status := Status.ok, output := some ("out-" ++ id), data := [("k-" ++ id, id)] }

/-! Helper lemmas. -/

lemma callAdapter_invalid_eq (isValidAdapterId : String → Bool) (config : AdapterConfig)
    (env : FetchCall → Nat → FetchOutcome) (adapterId : String) (input : Option String)
    (context : AdapterContext) (h : isValidAdapterId adapterId = false) :
    callAdapter isValidAdapterId config env adapterId input context =
      Except.error ("Invalid adapter ID: " ++ adapterId) := by
  simp [callAdapter, h]

lemma callAdapter_valid_eq (isValidAdapterId : String → Bool) (config : AdapterConfig)
    (env : FetchCall → Nat → FetchOutcome) (adapterId : String) (input : Option String)
    (context : AdapterContext) (h : isValidAdapterId adapterId = true) :
    callAdapter isValidAdapterId config env adapterId input context =
      Except.ok (validCallResult config env adapterId input context) := by
  simp [callAdapter, h, validCallResult]

lemma respOk_eq_false_of_client_error (s : Nat) (h : 400 ≤ s) : respOk s = false := by
  simp only [respOk, Bool.and_eq_false_iff, decide_eq_false_iff_not]
  omega

lemma shouldRetry_client_error (e : JsError) (attempt maxAttempts s : Nat)
    (hs : e.status = some s) (h4 : 400 ≤ s) (h5 : s < 500) :
    shouldRetry e attempt maxAttempts = false := by
  simp only [shouldRetry, hs]
  split
  · rfl
  · simp [h4, h5]

lemma callLoop_attempts_pos (adapterId : String) (config : AdapterConfig)
    (env : FetchCall → Nat → FetchOutcome) (input : Option String)
    (context : AdapterContext) (rc : RetryConfig) (attempt fuel : Nat)
    (le : Option JsError) :
    1 ≤ (callLoop adapterId config env input context rc attempt (fuel + 1) le).attempts := by
  simp only [callLoop]
  cases attemptResult adapterId
      (env (buildFetchCall config ⟨adapterId, input, context⟩) attempt) with
  | ok body => simp
  | error e =>
    by_cases hR : shouldRetry e attempt rc.maxAttempts
    · by_cases hM : attempt < rc.maxAttempts <;> simp [hR, hM]
    · simp [hR]

lemma callLoop_succ_ok (adapterId : String) (config : AdapterConfig)
    (env : FetchCall → Nat → FetchOutcome) (input : Option String)
    (context : AdapterContext) (rc : RetryConfig) (attempt k : Nat)
    (le : Option JsError) (body : AdapterResponse)
    (hA : attemptResult adapterId
        (env (buildFetchCall config ⟨adapterId, input, context⟩) attempt) =
      Except.ok body) :
    callLoop adapterId config env input context rc attempt (k + 1) le = ⟨body, 1, []⟩ := by
  simp [callLoop, hA]

lemma callLoop_succ_break (adapterId : String) (config : AdapterConfig)
    (env : FetchCall → Nat → FetchOutcome) (input : Option String)
    (context : AdapterContext) (rc : RetryConfig) (attempt k : Nat)
    (le : Option JsError) (e : JsError)
    (hA : attemptResult adapterId
        (env (buildFetchCall config ⟨adapterId, input, context⟩) attempt) =
      Except.error e)
    (hR : shouldRetry e attempt rc.maxAttempts = false) :
    callLoop adapterId config env input context rc attempt (k + 1) le =
      ⟨exhaustedResponse (some e), 1, []⟩ := by
  simp [callLoop, hA, hR]

lemma callLoop_succ_retry (adapterId : String) (config : AdapterConfig)
    (env : FetchCall → Nat → FetchOutcome) (input : Option String)
    (context : AdapterContext) (rc : RetryConfig) (attempt k : Nat)
    (le : Option JsError) (e : JsError)
    (hA : attemptResult adapterId
        (env (buildFetchCall config ⟨adapterId, input, context⟩) attempt) =
      Except.error e)
    (hR : shouldRetry e attempt rc.maxAttempts = true) :
    callLoop adapterId config env input context rc attempt (k + 1) le =
      ⟨(callLoop adapterId config env input context rc (attempt + 1) k (some e)).response,
       (callLoop adapterId config env input context rc (attempt + 1) k (some e)).attempts + 1,
       if attempt < rc.maxAttempts then
         getRetryDelay attempt rc ::
           (callLoop adapterId config env input context rc (attempt + 1) k (some e)).delays
       else
         (callLoop adapterId config env input context rc (attempt + 1) k (some e)).delays⟩ := by
  by_cases hM : attempt < rc.maxAttempts <;> simp [callLoop, hA, hR, hM]

lemma callLoop_wellformed (adapterId : String) (config : AdapterConfig)
    (env : FetchCall → Nat → FetchOutcome) (input : Option String)
    (context : AdapterContext) (rc : RetryConfig) (fuel : Nat) :
    ∀ (attempt : Nat) (le : Option JsError),
      (∃ n body,
        attemptResult adapterId (env (buildFetchCall config ⟨adapterId, input, context⟩) n) =
          Except.ok body ∧
        (callLoop adapterId config env input context rc attempt fuel le).response = body) ∨
      (∃ e,
        attemptResult adapterId (env (buildFetchCall config ⟨adapterId, input, context⟩)
          (attempt + (callLoop adapterId config env input context rc attempt fuel le).attempts
            - 1)) = Except.error e ∧
        1 ≤ (callLoop adapterId config env input context rc attempt fuel le).attempts ∧
        (callLoop adapterId config env input context rc attempt fuel le).response =
          exhaustedResponse (some e)) ∨
      ((callLoop adapterId config env input context rc attempt fuel le).attempts = 0 ∧
        (callLoop adapterId config env input context rc attempt fuel le).response =
          exhaustedResponse le) := by
  induction fuel with
  | zero =>
    intro attempt le
    right
    right
    exact ⟨rfl, rfl⟩
  | succ k ih =>
    intro attempt le
    cases hA : attemptResult adapterId
        (env (buildFetchCall config ⟨adapterId, input, context⟩) attempt) with
    | ok body =>
      left
      rw [callLoop_succ_ok adapterId config env input context rc attempt k le body hA]
      exact ⟨attempt, body, hA, rfl⟩
    | error e =>
      cases hR : shouldRetry e attempt rc.maxAttempts with
      | false =>
        right
        left
        rw [callLoop_succ_break adapterId config env input context rc attempt k le e hA hR]
        refine ⟨e, ?_, le_refl 1, rfl⟩
        simpa using hA
      | true =>
        have hAtt : (callLoop adapterId config env input context rc attempt (k + 1) le).attempts =
            (callLoop adapterId config env input context rc (attempt + 1) k
              (some e)).attempts + 1 := by
          rw [callLoop_succ_retry adapterId config env input context rc attempt k le e hA hR]
        have hResp : (callLoop adapterId config env input context rc attempt (k + 1) le).response =
            (callLoop adapterId config env input context rc (attempt + 1) k
              (some e)).response := by
          rw [callLoop_succ_retry adapterId config env input context rc attempt k le e hA hR]
        rcases ih (attempt + 1) (some e) with ⟨n, body, hA2, hresp⟩ |
          ⟨e2, hA2, hpos, hresp⟩ | ⟨hz, hresp⟩
        · left
          exact ⟨n, body, hA2, by rw [hResp]; exact hresp⟩
        · right
          left
          refine ⟨e2, ?_, by omega, by rw [hResp]; exact hresp⟩
          have hidx : attempt +
              (callLoop adapterId config env input context rc attempt (k + 1) le).attempts - 1 =
              attempt + 1 +
              (callLoop adapterId config env input context rc (attempt + 1) k
                (some e)).attempts - 1 := by
            omega
          rw [hidx]
          exact hA2
        · right
          left
          refine ⟨e, ?_, by omega, by rw [hResp, hresp]⟩
          have hidx : attempt +
              (callLoop adapterId config env input context rc attempt (k + 1) le).attempts - 1 =
              attempt := by
            omega
          rw [hidx]
          exact hA

lemma callLoop_fetch_congr (adapterId : String) (c1 c2 : AdapterConfig)
    (env : FetchCall → Nat → FetchOutcome) (input : Option String)
    (context : AdapterContext) (rc : RetryConfig)
    (h : buildFetchCall c1 ⟨adapterId, input, context⟩ =
      buildFetchCall c2 ⟨adapterId, input, context⟩) (fuel : Nat) :
    ∀ (attempt : Nat) (le : Option JsError),
      callLoop adapterId c1 env input context rc attempt fuel le =
        callLoop adapterId c2 env input context rc attempt fuel le := by
  induction fuel with
  | zero => intro attempt le; rfl
  | succ k ih =>
    intro attempt le
    simp only [callLoop, h]
    cases attemptResult adapterId
        (env (buildFetchCall c2 ⟨adapterId, input, context⟩) attempt) with
    | ok body => rfl
    | error e => simp [ih]

lemma validCallResult_timeout_irrelevant (config : AdapterConfig) (t : Option Nat)
    (env : FetchCall → Nat → FetchOutcome) (adapterId : String) (input : Option String)
    (context : AdapterContext) :
    validCallResult { config with timeout := t } env adapterId input context =
      validCallResult config env adapterId input context := by
  show callLoop adapterId (mkClientConfig { config with timeout := t }) env input context
      (mergedRetryConfig config.retry) 1 (mergedRetryConfig config.retry).maxAttempts none =
    callLoop adapterId (mkClientConfig config) env input context
      (mergedRetryConfig config.retry) 1 (mergedRetryConfig config.retry).maxAttempts none
  exact callLoop_fetch_congr adapterId (mkClientConfig { config with timeout := t })
    (mkClientConfig config) env input context (mergedRetryConfig config.retry) rfl
    (mergedRetryConfig config.retry).maxAttempts 1 none

lemma batch_all_valid (isValidAdapterId : String → Bool) (config : AdapterConfig)
    (envs : String → FetchCall → Nat → FetchOutcome) (input : Option String)
    (context : AdapterContext) (adapterIds : List String)
    (hvalid : ∀ id ∈ adapterIds, isValidAdapterId id = true) :
    batchCallAdapters isValidAdapterId config envs adapterIds input context =
      Except.ok (adapterIds.map
        (fun id => validCallResult config (envs id) id input context)) := by
  induction adapterIds with
  | nil => rfl
  | cons a rest ih =>
    have ha : isValidAdapterId a = true := hvalid a (List.mem_cons_self a rest)
    have hrest : ∀ id ∈ rest, isValidAdapterId id = true :=
      fun id hid => hvalid id (List.mem_cons_of_mem a hid)
    simp only [batchCallAdapters, List.mapM_cons] at *
    rw [callAdapter_valid_eq _ _ _ _ _ _ ha]
    rw [ih hrest]
    rfl

lemma batch_first_invalid (isValidAdapterId : String → Bool) (config : AdapterConfig)
    (envs : String → FetchCall → Nat → FetchOutcome) (input : Option String)
    (context : AdapterContext) (adapterIds : List String) (bad : String)
    (hbad : adapterIds.find? (fun id => !isValidAdapterId id) = some bad) :
    batchCallAdapters isValidAdapterId config envs adapterIds input context =
      Except.error ("Invalid adapter ID: " ++ bad) := by
  induction adapterIds with
  | nil => simp [List.find?] at hbad
  | cons a rest ih =>
    by_cases ha : isValidAdapterId a = true
    · have hfind : rest.find? (fun id => !isValidAdapterId id) = some bad := by
        rw [List.find?_cons] at hbad
        simpa [ha] using hbad
      simp only [batchCallAdapters, List.mapM_cons] at *
      rw [callAdapter_valid_eq _ _ _ _ _ _ ha]
      rw [ih hfind]
      rfl
    · have ha' : isValidAdapterId a = false := by
        cases h : isValidAdapterId a
        · rfl
        · exact absurd h ha
      have hab : a = bad := by
        rw [List.find?_cons] at hbad
        simp [ha'] at hbad
        exact hbad
      subst hab
      simp only [batchCallAdapters, List.mapM_cons]
      rw [callAdapter_invalid_eq _ _ _ _ _ _ ha']
      rfl

lemma recordFailures_append_last (cfg : BreakerConfig) :
    ∀ (init : List Nat) (tN : Nat) (s : CircuitBreakerState),
      s.state = CircuitState.closed →
      s.failures + init.length + 1 = cfg.failureThreshold →
      recordFailures cfg (init ++ [tN]) s =
        { state := CircuitState.open_, failures := cfg.failureThreshold,
          lastFailureTime := tN, successes := s.successes } := by
  intro init
  induction init with
  | nil =>
    intro tN s hclosed hcount
    simp only [List.length_nil, Nat.add_zero] at hcount
    simp only [List.nil_append, recordFailures, List.foldl_cons, List.foldl_nil]
    simp only [recordFailure, hclosed]
    rw [hcount]
    simp
  | cons t init ih =>
    intro tN s hclosed hcount
    simp only [List.length_cons] at hcount
    have hlt : s.failures + 1 < cfg.failureThreshold := by omega
    have hstep : recordFailure cfg t s = { s with failures := s.failures + 1 } := by
      simp only [recordFailure, hclosed]
      rw [if_neg (by omega)]
    simp only [List.cons_append, recordFailures, List.foldl_cons]
    rw [show (List.foldl (fun acc t => recordFailure cfg t acc) (recordFailure cfg t s)
          (init ++ [tN])) = recordFailures cfg (init ++ [tN]) (recordFailure cfg t s) from rfl]
    rw [hstep]
    exact ih tN { s with failures := s.failures + 1 } hclosed (by simp; omega)

lemma runBeforeLLM_first_failure (call : String → AdapterResponse) :
    ∀ (pre : List String) (x : String) (rest : List String) (input : String)
      (context : AdapterContext),
      (∀ a ∈ pre, (call a).status = Status.ok) →
      (call x).status = Status.error →
      runBeforeLLM call input context (pre ++ x :: rest) =
        ⟨PipelineOutcome.failed x (call x).error, pre ++ [x]⟩ := by
  intro pre
  induction pre with
  | nil =>
    intro x rest input context _ hx
    simp only [List.nil_append, runBeforeLLM]
    rw [if_pos hx]
  | cons a pre ih =>
    intro x rest input context hok hx
    have hA : (call a).status = Status.ok := hok a (List.mem_cons_self a pre)
    have hA' : ¬((call a).status = Status.error) := by
      rw [hA]
      simp
    simp only [List.cons_append, runBeforeLLM]
    rw [if_neg hA']
    simp only [List.append_eq]
    rw [ih x rest ((call a).output.getD input) (mergeContext context (call a).data)
      (fun b hb => hok b (List.mem_cons_of_mem a hb)) hx]

lemma runAfterLLM_first_failure (call : String → AdapterResponse) :
    ∀ (pre : List String) (x : String) (rest : List String) (context : AdapterContext),
      (∀ a ∈ pre, (call a).status = Status.ok) →
      (call x).status = Status.error →
      runAfterLLM call context (pre ++ x :: rest) =
        ⟨PipelineOutcome.failed x (call x).error, pre ++ [x]⟩ := by
  intro pre
  induction pre with
  | nil =>
    intro x rest context _ hx
    simp only [List.nil_append, runAfterLLM]
    rw [if_pos hx]
  | cons a pre ih =>
    intro x rest context hok hx
    have hA : (call a).status = Status.ok := hok a (List.mem_cons_self a pre)
    have hA' : ¬((call a).status = Status.error) := by
      rw [hA]
      simp
    simp only [List.cons_append, runAfterLLM]
    rw [if_neg hA']
    simp only [List.append_eq]
    rw [ih x rest (mergeContext context (call a).data)
      (fun b hb => hok b (List.mem_cons_of_mem a hb)) hx]

/-! Claim theorems. -/

/-- C4: for every 1-indexed attempt number and retry configuration, the
backoff delay equals `min(baseDelay * backoffMultiplier^(attempt-1), maxDelay)`,
and for `baseDelay=1000, backoffMultiplier=2, maxDelay=10000, maxAttempts=5`
the successive delays are 1000, 2000, 4000, 8000, 10000. -/
theorem claim_C4 :
    (∀ (attempt : Nat) (rc : RetryConfig), 1 ≤ attempt →
      getRetryDelay attempt rc =
        min (rc.baseDelay * rc.backoffMultiplier ^ (attempt - 1)) rc.maxDelay) ∧
    [1, 2, 3, 4, 5].map (fun a => getRetryDelay a
        { maxAttempts := 5, baseDelay := 1000, maxDelay := 10000, backoffMultiplier := 2 }) =
      [1000, 2000, 4000, 8000, 10000] := by
  exact ⟨fun attempt rc _ => rfl, by decide⟩

/-- C4 at a concrete input: the delay after the fifth attempt of the example
configuration is the capped value. -/
theorem claim_C4_witness :
    getRetryDelay 5
        { maxAttempts := 5, baseDelay := 1000, maxDelay := 10000, backoffMultiplier := 2 } =
      min (1000 * 2 ^ (5 - 1)) 10000 :=
  claim_C4.1 5
    { maxAttempts := 5, baseDelay := 1000, maxDelay := 10000, backoffMultiplier := 2 }
    (by decide)

/-- C7: an adapter id failing registry validation makes `callAdapter` throw a
validation error immediately, with zero network attempts and no retries. -/
theorem claim_C7 (isValidAdapterId : String → Bool) (config : AdapterConfig)
    (env : FetchCall → Nat → FetchOutcome) (adapterId : String) (input : Option String)
    (context : AdapterContext) (h : isValidAdapterId adapterId = false) :
    callAdapter isValidAdapterId config env adapterId input context =
      Except.error ("Invalid adapter ID: " ++ adapterId) ∧
    attemptsMade (callAdapter isValidAdapterId config env adapterId input context) = 0 ∧
    delaysSlept (callAdapter isValidAdapterId config env adapterId input context) = [] := by
  have he := callAdapter_invalid_eq isValidAdapterId config env adapterId input context h
  exact ⟨he, by rw [he]; rfl, by rw [he]; rfl⟩

/-- C7 at a concrete input: the spec's example id `"not-a-real-adapter"`. -/
theorem claim_C7_witness :
    callAdapter registryEx cfgEx envAlwaysOk "not-a-real-adapter" none [] =
      Except.error ("Invalid adapter ID: " ++ "not-a-real-adapter") ∧
    attemptsMade (callAdapter registryEx cfgEx envAlwaysOk "not-a-real-adapter" none []) = 0 ∧
    delaysSlept (callAdapter registryEx cfgEx envAlwaysOk "not-a-real-adapter" none []) = [] :=
  claim_C7 registryEx cfgEx envAlwaysOk "not-a-real-adapter" none [] rfl

/-- C5: a call whose network attempt receives a 4xx client-error reply makes
exactly one network attempt regardless of `maxAttempts` and returns a
structured error response immediately, with no backoff sleep; additionally,
`shouldRetry` refuses to retry a 4xx error whatever the attempt number. -/
theorem claim_C5 (isValidAdapterId : String → Bool) (config : AdapterConfig)
    (env : FetchCall → Nat → FetchOutcome) (adapterId : String) (input : Option String)
    (context : AdapterContext) (s : Nat) (text : String) (body : AdapterResponse)
    (hvalid : isValidAdapterId adapterId = true)
    (henv : env (buildFetchCall (mkClientConfig config) ⟨adapterId, input, context⟩) 1 =
      FetchOutcome.reply s text body)
    (h4 : 400 ≤ s) (h5 : s < 500)
    (hmax : 1 ≤ (mergedRetryConfig (mkClientConfig config).retry).maxAttempts) :
    callAdapter isValidAdapterId config env adapterId input context =
      Except.ok
        { response :=
            { status := Status.error,
              error := some ("Adapter " ++ adapterId ++ " failed: " ++ text) },
          attempts := 1, delays := [] } := by
  rw [callAdapter_valid_eq isValidAdapterId config env adapterId input context hvalid]
  obtain ⟨k, hk⟩ : ∃ k, (mergedRetryConfig (mkClientConfig config).retry).maxAttempts = k + 1 :=
    ⟨(mergedRetryConfig (mkClientConfig config).retry).maxAttempts - 1, by omega⟩
  simp only [validCallResult, hk, callLoop, henv, attemptResult]
  rw [respOk_eq_false_of_client_error s h4]
  simp only [Bool.false_eq_true, if_false]
  rw [shouldRetry_client_error (attemptFailure adapterId s text) 1 _ s rfl h4 h5]
  simp [exhaustedResponse, attemptFailure]

/-- C5 at a concrete input: a 404 reply under the default retry config. -/
theorem claim_C5_witness :
    callAdapter registryEx cfgEx env404 "doc-extract" none [] =
      Except.ok
        { response :=
            { status := Status.error,
              error := some ("Adapter " ++ "doc-extract" ++ " failed: " ++ "Not Found") },
          attempts := 1, delays := [] } :=
  claim_C5 registryEx cfgEx env404 "doc-extract" none [] 404 "Not Found"
    { status := Status.ok } rfl rfl (by decide) (by decide) (by decide)

/-- C1 fails on the code: `callAdapter` contains no circuit-breaker gate at
all. With the breaker for `"doc-extract"` reporting OPEN, the call is not
rejected: it performs a network attempt and returns the adapter's response. -/
theorem claim_C1_counterexample :
    openBreakerEx.state = CircuitState.open_ ∧
    callAdapter registryEx cfgEx envAlwaysOk "doc-extract" none [] =
      Except.ok ⟨okBody, 1, []⟩ ∧
    attemptsMade (callAdapter registryEx cfgEx envAlwaysOk "doc-extract" none []) = 1 :=
  ⟨rfl, rfl, rfl⟩

/-- C1 (amended): `callAdapter` consults no circuit breaker; whatever breaker
state is recorded for the adapter id — including OPEN — a call with a valid
id enters the retry loop and makes at least one network attempt. -/
theorem claim_C1 (b : CircuitBreakerState) (isValidAdapterId : String → Bool)
    (config : AdapterConfig) (env : FetchCall → Nat → FetchOutcome) (adapterId : String)
    (input : Option String) (context : AdapterContext)
    (_hopen : b.state = CircuitState.open_)
    (hvalid : isValidAdapterId adapterId = true)
    (hmax : 1 ≤ (mergedRetryConfig (mkClientConfig config).retry).maxAttempts) :
    callAdapter isValidAdapterId config env adapterId input context =
      Except.ok (validCallResult config env adapterId input context) ∧
    1 ≤ attemptsMade (callAdapter isValidAdapterId config env adapterId input context) := by
  have he := callAdapter_valid_eq isValidAdapterId config env adapterId input context hvalid
  refine ⟨he, ?_⟩
  rw [he]
  show 1 ≤ (validCallResult config env adapterId input context).attempts
  obtain ⟨k, hk⟩ : ∃ k, (mergedRetryConfig (mkClientConfig config).retry).maxAttempts = k + 1 :=
    ⟨(mergedRetryConfig (mkClientConfig config).retry).maxAttempts - 1, by omega⟩
  simp only [validCallResult, hk]
  exact callLoop_attempts_pos adapterId (mkClientConfig config) env input context
    (mergedRetryConfig (mkClientConfig config).retry) 1 k none

/-- C1 (amended) at a concrete input: an OPEN breaker, a valid id, and the
default retry configuration. -/
theorem claim_C1_witness :
    callAdapter registryEx cfgEx envAlwaysOk "doc-extract" none [] =
      Except.ok (validCallResult cfgEx envAlwaysOk "doc-extract" none []) ∧
    1 ≤ attemptsMade (callAdapter registryEx cfgEx envAlwaysOk "doc-extract" none []) :=
  claim_C1 openBreakerEx registryEx cfgEx envAlwaysOk "doc-extract" none [] rfl rfl
    (by decide)

/-- C3 fails on the code: the fetch call built by `callAdapter` carries no
abort/timeout signal, and the call's outcome is identical under a 30000ms and
a 1ms configured timeout, so network attempts are not subject to the
configured timeout. -/
theorem claim_C3_counterexample :
    cfgTimeoutA.timeout = some 30000 ∧
    cfgTimeoutB.timeout = some 1 ∧
    (buildFetchCall (mkClientConfig cfgTimeoutA) ⟨"doc-extract", none, []⟩).signal = none ∧
    callAdapter registryEx cfgTimeoutA envAlwaysDown "doc-extract" none [] =
      callAdapter registryEx cfgTimeoutB envAlwaysDown "doc-extract" none [] :=
  ⟨rfl, rfl, rfl, rfl⟩

/-- C3 (amended): the timeout defaults to 30000ms when not supplied, and an
attempt error carrying no HTTP status (as a timeout would) is classified
retryable while attempts remain; but the configured timeout is never applied
to a network attempt — the fetch is issued with no abort/timeout signal and
`callAdapter`'s behaviour is independent of the configured timeout. -/
theorem claim_C3 :
    (∀ config : AdapterConfig, config.timeout = none →
      (mkClientConfig config).timeout = some 30000) ∧
    (∀ (e : JsError) (attempt maxAttempts : Nat), e.status = none →
      attempt < maxAttempts → shouldRetry e attempt maxAttempts = true) ∧
    (∀ (config : AdapterConfig) (request : AdapterRequest),
      (buildFetchCall config request).signal = none) ∧
    (∀ (t : Option Nat) (isValidAdapterId : String → Bool) (config : AdapterConfig)
        (env : FetchCall → Nat → FetchOutcome) (adapterId : String)
        (input : Option String) (context : AdapterContext),
      callAdapter isValidAdapterId { config with timeout := t } env adapterId input context =
        callAdapter isValidAdapterId config env adapterId input context) := by
  refine ⟨?_, ?_, ?_, ?_⟩
  · intro config h
    simp [mkClientConfig, h]
  · intro e attempt maxAttempts hs hlt
    simp only [shouldRetry, hs]
    rw [if_neg (by omega)]
  · intro config request
    rfl
  · intro t isValidAdapterId config env adapterId input context
    cases hv : isValidAdapterId adapterId with
    | false =>
      rw [callAdapter_invalid_eq isValidAdapterId _ env adapterId input context hv,
        callAdapter_invalid_eq isValidAdapterId config env adapterId input context hv]
    | true =>
      rw [callAdapter_valid_eq isValidAdapterId _ env adapterId input context hv,
        callAdapter_valid_eq isValidAdapterId config env adapterId input context hv,
        validCallResult_timeout_irrelevant]

/-- C3 (amended) at concrete inputs: the default is filled in for `cfgEx`, a
status-free error at attempt 1 of 3 is retryable, the fetch call for a
concrete request has no signal, and a concrete timeout override does not
change the call's outcome. -/
theorem claim_C3_witness :
    (mkClientConfig cfgEx).timeout = some 30000 ∧
    shouldRetry { message := "timeout" } 1 3 = true ∧
    (buildFetchCall cfgEx ⟨"doc-extract", none, []⟩).signal = none ∧
    callAdapter registryEx { cfgEx with timeout := some 1 } envAlwaysDown "doc-extract"
        none [] =
      callAdapter registryEx cfgEx envAlwaysDown "doc-extract" none [] :=
  ⟨claim_C3.1 cfgEx rfl,
   claim_C3.2.1 { message := "timeout" } 1 3 rfl (by decide),
   claim_C3.2.2.1 cfgEx ⟨"doc-extract", none, []⟩,
   claim_C3.2.2.2 (some 1) registryEx cfgEx envAlwaysDown "doc-extract" none []⟩

/-- C6: with a valid adapter id the call never escapes abnormally: it always
returns `Except.ok` with a well-formed `AdapterResponse` — either a body
returned by a successful network attempt, or the structured exhaustion
response with `status = error` whose error string is exactly the one the code
derives from the last observed error, namely the error caught at the final
attempt made (attempt number `r.attempts` in the 1-indexed loop), or — when
`maxAttempts` is 0, so that no attempt ran and no error was observed — the
literal unknown-error response. -/
theorem claim_C6 (isValidAdapterId : String → Bool) (config : AdapterConfig)
    (env : FetchCall → Nat → FetchOutcome) (adapterId : String) (input : Option String)
    (context : AdapterContext) (hvalid : isValidAdapterId adapterId = true) :
    ∃ r : CallResult,
      callAdapter isValidAdapterId config env adapterId input context = Except.ok r ∧
      ((∃ n body, attemptResult adapterId
          (env (buildFetchCall (mkClientConfig config) ⟨adapterId, input, context⟩) n) =
            Except.ok body ∧ r.response = body) ∨
        (∃ e, attemptResult adapterId
            (env (buildFetchCall (mkClientConfig config) ⟨adapterId, input, context⟩)
              r.attempts) = Except.error e ∧
          1 ≤ r.attempts ∧
          r.response = exhaustedResponse (some e) ∧
          r.response.status = Status.error ∧
          r.response.error =
            some (if e.isErrorInstance then e.message else "Unknown error occurred")) ∨
        (r.attempts = 0 ∧ r.response = exhaustedResponse none ∧
          r.response.status = Status.error ∧
          r.response.error = some "Unknown error occurred")) := by
  refine ⟨validCallResult config env adapterId input context,
    callAdapter_valid_eq isValidAdapterId config env adapterId input context hvalid, ?_⟩
  rcases callLoop_wellformed adapterId (mkClientConfig config) env input context
      (mergedRetryConfig (mkClientConfig config).retry)
      (mergedRetryConfig (mkClientConfig config).retry).maxAttempts 1 none with
    ⟨n, body, hA, hresp⟩ | ⟨e, hAe, hpos, hresp⟩ | ⟨hz, hresp⟩
  · exact Or.inl ⟨n, body, hA, hresp⟩
  · right
    left
    have hresp' : (validCallResult config env adapterId input context).response =
        exhaustedResponse (some e) := hresp
    have hpos' : 1 ≤ (validCallResult config env adapterId input context).attempts := hpos
    refine ⟨e, ?_, hpos', hresp', by rw [hresp']; rfl, by rw [hresp']; rfl⟩
    have hidx : (validCallResult config env adapterId input context).attempts =
        1 + (validCallResult config env adapterId input context).attempts - 1 := by
      omega
    rw [hidx]
    exact hAe
  · right
    right
    have hz' : (validCallResult config env adapterId input context).attempts = 0 := hz
    have hresp' : (validCallResult config env adapterId input context).response =
        exhaustedResponse none := hresp
    exact ⟨hz', hresp', by rw [hresp']; rfl, by rw [hresp']; rfl⟩

/-- C6 at a concrete input: a permanently failing network still yields a
well-formed, `Except.ok` outcome whose error string is tied to the error of
the final attempt. -/
theorem claim_C6_witness :
    ∃ r : CallResult,
      callAdapter registryEx cfgEx envAlwaysDown "doc-extract" none [] = Except.ok r ∧
      ((∃ n body, attemptResult "doc-extract"
          (envAlwaysDown (buildFetchCall (mkClientConfig cfgEx) ⟨"doc-extract", none, []⟩) n) =
            Except.ok body ∧ r.response = body) ∨
        (∃ e, attemptResult "doc-extract"
            (envAlwaysDown (buildFetchCall (mkClientConfig cfgEx) ⟨"doc-extract", none, []⟩)
              r.attempts) = Except.error e ∧
          1 ≤ r.attempts ∧
          r.response = exhaustedResponse (some e) ∧
          r.response.status = Status.error ∧
          r.response.error =
            some (if e.isErrorInstance then e.message else "Unknown error occurred")) ∨
        (r.attempts = 0 ∧ r.response = exhaustedResponse none ∧
          r.response.status = Status.error ∧
          r.response.error = some "Unknown error occurred")) :=
  claim_C6 registryEx cfgEx envAlwaysDown "doc-extract" none [] rfl

/-- C10: a batch whose id list contains an id failing registry validation
rejects as a whole with that id's validation error; no result array is
returned for any id. -/
theorem claim_C10 (isValidAdapterId : String → Bool) (config : AdapterConfig)
    (envs : String → FetchCall → Nat → FetchOutcome) (input : Option String)
    (context : AdapterContext) (adapterIds : List String) (bad : String)
    (hbad : adapterIds.find? (fun id => !isValidAdapterId id) = some bad) :
    batchCallAdapters isValidAdapterId config envs adapterIds input context =
      Except.error ("Invalid adapter ID: " ++ bad) ∧
    ∀ rs : List CallResult,
      batchCallAdapters isValidAdapterId config envs adapterIds input context ≠
        Except.ok rs := by
  have he := batch_first_invalid isValidAdapterId config envs input context adapterIds bad hbad
  exact ⟨he, fun rs h => Except.noConfusion (he.symm.trans h)⟩

/-- C10 at a concrete input: one valid and one invalid id. -/
theorem claim_C10_witness :
    batchCallAdapters registryEx cfgEx (fun _ => envAlwaysOk)
        ["doc-extract", "not-a-real-adapter"] none [] =
      Except.error ("Invalid adapter ID: " ++ "not-a-real-adapter") ∧
    ∀ rs : List CallResult,
      batchCallAdapters registryEx cfgEx (fun _ => envAlwaysOk)
          ["doc-extract", "not-a-real-adapter"] none [] ≠
        Except.ok rs :=
  claim_C10 registryEx cfgEx (fun _ => envAlwaysOk) none []
    ["doc-extract", "not-a-real-adapter"] "not-a-real-adapter" rfl

/-- C8 fails as universally stated: a list containing an id that fails
registry validation makes the whole batch reject, so no result array of the
same length is returned for that list. -/
theorem claim_C8_counterexample :
    batchCallAdapters registryEx cfgEx (fun _ => envAlwaysOk)
        ["notify", "not-a-real-adapter"] none [] =
      Except.error ("Invalid adapter ID: " ++ "not-a-real-adapter") := rfl

/-- C8 (amended): for every list of adapter ids that all pass registry
validation, the batch returns one result per id, in input-list positional
order, each result being exactly that id's independent `callAdapter` outcome;
position `i` depends only on the network behaviour of the id at position `i`,
so one adapter's failures or retries cannot affect another's result. -/
theorem claim_C8 (isValidAdapterId : String → Bool) (config : AdapterConfig)
    (envs : String → FetchCall → Nat → FetchOutcome) (input : Option String)
    (context : AdapterContext) (adapterIds : List String)
    (hvalid : ∀ id ∈ adapterIds, isValidAdapterId id = true) :
    batchCallAdapters isValidAdapterId config envs adapterIds input context =
      Except.ok (adapterIds.map
        (fun id => validCallResult config (envs id) id input context)) ∧
    (∀ rs : List CallResult,
      batchCallAdapters isValidAdapterId config envs adapterIds input context =
        Except.ok rs →
      rs.length = adapterIds.length ∧
      ∀ i : Nat, rs.get? i = (adapterIds.get? i).map
        (fun id => validCallResult config (envs id) id input context)) ∧
    (∀ (envs' : String → FetchCall → Nat → FetchOutcome) (i : Nat) (id : String),
      adapterIds.get? i = some id → envs' id = envs id →
      ∃ rs : List CallResult,
        batchCallAdapters isValidAdapterId config envs' adapterIds input context =
          Except.ok rs ∧
        rs.get? i = some (validCallResult config (envs id) id input context)) := by
  have hmap := batch_all_valid isValidAdapterId config envs input context adapterIds hvalid
  refine ⟨hmap, ?_, ?_⟩
  · intro rs h
    rw [hmap] at h
    injection h with h'
    subst h'
    constructor
    · exact List.length_map adapterIds _
    · intro i
      exact List.get?_map _ adapterIds i
  · intro envs' i id hip henv
    refine ⟨adapterIds.map (fun id => validCallResult config (envs' id) id input context),
      batch_all_valid isValidAdapterId config envs' input context adapterIds hvalid, ?_⟩
    rw [List.get?_map, hip]
    simp [henv]

/-- C8 (amended) at a concrete input: two valid ids, order-preserving results. -/
theorem claim_C8_witness :
    batchCallAdapters registryEx cfgEx (fun _ => envAlwaysOk) ["doc-extract", "notify"]
        none [] =
      Except.ok (["doc-extract", "notify"].map
        (fun id => validCallResult cfgEx envAlwaysOk id none [])) :=
  (claim_C8 registryEx cfgEx (fun _ => envAlwaysOk) none [] ["doc-extract", "notify"]
    (by decide)).1

/-- C2: the spec-modelled per-adapter breaker machine starts CLOSED; after
`failureThreshold` consecutive failures from a fresh CLOSED state it is OPEN
with `lastFailureTime` set to the last failure's time; while OPEN inside the
cooldown window the gate rejects (fail fast, no attempt); once the cooldown
has elapsed the gate admits exactly one trial, moving to HALF_OPEN, where
further calls are rejected; a successful trial yields CLOSED with
`failures = successes = 0`, and a failing trial yields OPEN with
`lastFailureTime` refreshed to the current time. -/
theorem claim_C2 :
    initialBreaker =
      { state := CircuitState.closed, failures := 0, lastFailureTime := 0,
        successes := 0 } ∧
    (∀ (cfg : BreakerConfig) (init : List Nat) (tN : Nat) (s : CircuitBreakerState),
      s.state = CircuitState.closed → s.failures = 0 →
      init.length + 1 = cfg.failureThreshold →
      recordFailures cfg (init ++ [tN]) s =
        { state := CircuitState.open_, failures := cfg.failureThreshold,
          lastFailureTime := tN, successes := s.successes }) ∧
    (∀ (cfg : BreakerConfig) (now : Nat) (s : CircuitBreakerState),
      s.state = CircuitState.open_ → now - s.lastFailureTime < cfg.cooldown →
      breakerGate cfg now s = (false, s)) ∧
    (∀ (cfg : BreakerConfig) (now : Nat) (s : CircuitBreakerState),
      s.state = CircuitState.open_ → cfg.cooldown ≤ now - s.lastFailureTime →
      breakerGate cfg now s = (true, { s with state := CircuitState.halfOpen })) ∧
    (∀ (cfg : BreakerConfig) (now : Nat) (s : CircuitBreakerState),
      s.state = CircuitState.halfOpen → breakerGate cfg now s = (false, s)) ∧
    (∀ s : CircuitBreakerState, s.state = CircuitState.halfOpen →
      recordSuccess s =
        { s with state := CircuitState.closed, failures := 0, successes := 0 }) ∧
    (∀ (cfg : BreakerConfig) (now : Nat) (s : CircuitBreakerState),
      s.state = CircuitState.halfOpen →
      recordFailure cfg now s =
        { s with state := CircuitState.open_, lastFailureTime := now }) := by
  refine ⟨rfl, ?_, ?_, ?_, ?_, ?_, ?_⟩
  · intro cfg init tN s h1 h2 h3
    exact recordFailures_append_last cfg init tN s h1 (by omega)
  · intro cfg now s h hcool
    simp only [breakerGate, h]
    rw [if_neg (by omega)]
  · intro cfg now s h hcool
    simp only [breakerGate, h]
    rw [if_pos hcool]
  · intro cfg now s h
    simp only [breakerGate, h]
  · intro s h
    simp only [recordSuccess, h]
  · intro cfg now s h
    simp only [recordFailure, h]

/-- C2 at concrete inputs: threshold 3, cooldown 5000; three failures at
times 10, 20, 30 trip the breaker; the gate rejects at time 1000 and admits
the trial at time 6000; trial success and trial failure behave as specified. -/
theorem claim_C2_witness :
    recordFailures ⟨3, 5000⟩ [10, 20, 30] initialBreaker =
      ⟨CircuitState.open_, 3, 30, 0⟩ ∧
    breakerGate ⟨3, 5000⟩ 1000 ⟨CircuitState.open_, 3, 30, 0⟩ =
      (false, ⟨CircuitState.open_, 3, 30, 0⟩) ∧
    breakerGate ⟨3, 5000⟩ 6000 ⟨CircuitState.open_, 3, 30, 0⟩ =
      (true, ⟨CircuitState.halfOpen, 3, 30, 0⟩) ∧
    recordSuccess ⟨CircuitState.halfOpen, 3, 30, 0⟩ =
      ⟨CircuitState.closed, 0, 30, 0⟩ ∧
    recordFailure ⟨3, 5000⟩ 7000 ⟨CircuitState.halfOpen, 3, 30, 0⟩ =
      ⟨CircuitState.open_, 3, 7000, 0⟩ :=
  ⟨claim_C2.2.1 ⟨3, 5000⟩ [10, 20] 30 initialBreaker rfl rfl rfl,
   claim_C2.2.2.1 ⟨3, 5000⟩ 1000 _ rfl (by decide),
   claim_C2.2.2.2.1 ⟨3, 5000⟩ 6000 _ rfl (by decide),
   claim_C2.2.2.2.2.2.1 _ rfl,
   claim_C2.2.2.2.2.2.2 ⟨3, 5000⟩ 7000 _ rfl⟩

/-- C9: in a sequential pipeline run (before- or after-LLM, spec-modelled),
once the first failing step is reached no later adapter is invoked and the
run surfaces that step's identity and error; in particular, for `[x, y]`
with `x` failing, `y` is never invoked. -/
theorem claim_C9 (call : String → AdapterResponse) (pre rest : List String) (x : String)
    (input : String) (context : AdapterContext)
    (hok : ∀ a ∈ pre, (call a).status = Status.ok)
    (hx : (call x).status = Status.error) :
    runBeforeLLM call input context (pre ++ x :: rest) =
      ⟨PipelineOutcome.failed x (call x).error, pre ++ [x]⟩ ∧
    runAfterLLM call context (pre ++ x :: rest) =
      ⟨PipelineOutcome.failed x (call x).error, pre ++ [x]⟩ ∧
    ∀ y ∈ rest, y ∉ pre → y ≠ x →
      y ∉ (runBeforeLLM call input context (pre ++ x :: rest)).invoked := by
  have hb := runBeforeLLM_first_failure call pre x rest input context hok hx
  have ha := runAfterLLM_first_failure call pre x rest context hok hx
  refine ⟨hb, ha, ?_⟩
  intro y _ hynp hynx
  rw [hb]
  simp only [List.mem_append, List.mem_singleton]
  exact fun hmem => hmem.elim hynp hynx

/-- C9 at a concrete input: `["good-step", "bad-step", "later-step"]` stops
at `"bad-step"` and never invokes `"later-step"`. -/
theorem claim_C9_witness :
    runBeforeLLM pipelineCallEx "in" [] ["good-step", "bad-step", "later-step"] =
      ⟨PipelineOutcome.failed "bad-step" (some "step exploded"),
        ["good-step", "bad-step"]⟩ ∧
    runAfterLLM pipelineCallEx [] ["good-step", "bad-step", "later-step"] =
      ⟨PipelineOutcome.failed "bad-step" (some "step exploded"),
        ["good-step", "bad-step"]⟩ :=
  ⟨(claim_C9 pipelineCallEx ["good-step"] ["later-step"] "bad-step" "in" []
      (by decide) rfl).1,
   (claim_C9 pipelineCallEx ["good-step"] ["later-step"] "bad-step" "in" []
      (by decide) rfl).2.1⟩

end Agistry
